import Mathlib

/-!
Verification of the notebook helper functions in
`04_deploy_model/notebook_utilities.py`: job lookup by name prefix,
model-artifact resolution, and the SDK dependency checker.

The Python code is embedded shallowly: the remote listing/describe APIs
become function parameters, side effects (prints, the pip invocation, the
kernel shutdown signal) become an explicit event trace, and Python errors
(`raise Exception(...)`, `ValueError` from `int`, remote service errors)
become an `Except` error type.  Python strings are modelled as `List Char`
where character-level operations (`split`, `int`) are involved.
-/

/-- Errors that can surface from the embedded functions:
`notFound` is the locally raised `Exception('Training job not found.')`;
`remote` is an error passed through from the boto3 service call;
`valueError` is the interpreter error raised by `int()` on bad input. -/
inductive PyError where
  | notFound (msg : String)
  | remote (msg : String)
  | valueError (msg : String)
  deriving DecidableEq, Repr

/-- A summary record from the `list_training_jobs` response
(`TrainingJobSummaries` entries carry at least a name, a creation time and
a status). -/
structure TrainingJobSummary where
  trainingJobName : String
  creationTime : Int
  trainingJobStatus : String
  deriving DecidableEq, Repr

/-- The request issued by `client.list_training_jobs(...)`. -/
structure ListTrainingJobsRequest where
  nameContains : String
  sortBy : String
  sortOrder : String
  statusEquals : String
  deriving DecidableEq, Repr

/-- The nested `ModelArtifacts` record of a describe response. -/
structure ModelArtifacts where
  s3ModelArtifacts : String
  deriving DecidableEq, Repr

/-- The `describe_training_job` response, as far as the code reads it. -/
structure TrainingJobDescription where
  modelArtifacts : ModelArtifacts
  deriving DecidableEq, Repr

/-- The request built by `get_latest_training_job_name`:
`NameContains=base_job_name, SortBy='CreationTime', SortOrder='Descending',
StatusEquals='Completed'`. -/
def listRequest (base_job_name : String) : ListTrainingJobsRequest :=
  { nameContains := base_job_name
    sortBy := "CreationTime"
    sortOrder := "Descending"
    statusEquals := "Completed" }

/-- Embedding of `get_latest_training_job_name`.  The remote listing API is
a parameter; the first component of the result is the trace of listing
requests issued (the code issues exactly one), the second the returned
name or the raised error.  Mirrors:
`if len(response['TrainingJobSummaries']) > 0: return response[...][0][...]
 else: raise Exception('Training job not found.')`. -/
def get_latest_training_job_name
    (listApi : ListTrainingJobsRequest → List TrainingJobSummary)
    (base_job_name : String) :
    List ListTrainingJobsRequest × Except PyError String :=
  let response := listApi (listRequest base_job_name)
  match response with
  | [] => ([listRequest base_job_name],
      Except.error (PyError.notFound "Training job not found."))
  | s :: _ => ([listRequest base_job_name], Except.ok s.trainingJobName)

/-- Embedding of `get_training_job_s3_model_artifacts`.  The describe API is
a parameter that either returns a response or fails with a remote service
error; the function extracts
`response['ModelArtifacts']['S3ModelArtifacts']` unchanged and passes
remote errors through. -/
def get_training_job_s3_model_artifacts
    (describeApi : String → Except String TrainingJobDescription)
    (job_name : String) : Except PyError String :=
  match describeApi job_name with
  | Except.error m => Except.error (PyError.remote m)
  | Except.ok response => Except.ok response.modelArtifacts.s3ModelArtifacts

/-- Python `str.split(".")` on the character sequence: splits on every
occurrence of the dot, keeping empty segments. -/
def splitOnDot : List Char → List (List Char)
  | [] => [[]]
  | c :: rest =>
    if c = '.' then [] :: splitOnDot rest
    else
      match splitOnDot rest with
      | [] => [[c]]
      | g :: gs => (c :: g) :: gs

/-- The digit-and-underscore body accepted by Python `int`: nonempty,
starts and ends with a decimal digit, and any underscore sits between two
digits. -/
def digitsWithUnderscores : List Char → Bool
  | [] => false
  | [c] => c.isDigit
  | c :: d :: rest =>
    c.isDigit &&
      (if d = '_' then digitsWithUnderscores rest
       else digitsWithUnderscores (d :: rest))

/-- Numeric value of a list of decimal digits (underscores removed). -/
def digitsToNat (ds : List Char) : Nat :=
  ds.foldl (fun a c => a * 10 + (c.toNat - 48)) 0

/-- Leading/trailing whitespace removal, as Python `int` applies to its
argument. -/
def trimChars (cs : List Char) : List Char :=
  ((cs.dropWhile Char.isWhitespace).reverse.dropWhile Char.isWhitespace).reverse

/-- Python `int(s)` in base 10: optional surrounding whitespace, optional
sign, then a digit string (underscores allowed between digits); `none`
models the `ValueError` raised on any other input. -/
def pythonInt (cs : List Char) : Option Int :=
  match trimChars cs with
  | '+' :: body =>
    if digitsWithUnderscores body
    then some (Int.ofNat (digitsToNat (body.filter (fun c => c != '_'))))
    else none
  | '-' :: body =>
    if digitsWithUnderscores body
    then some (-(Int.ofNat (digitsToNat (body.filter (fun c => c != '_')))))
    else none
  | body =>
    if digitsWithUnderscores body
    then some (Int.ofNat (digitsToNat (body.filter (fun c => c != '_'))))
    else none

/-- Python `int(s)` with its error: a failed parse raises `ValueError`. -/
def pythonIntE (cs : List Char) : Except PyError Int :=
  match pythonInt cs with
  | some n => Except.ok n
  | none => Except.error (PyError.valueError
      ("invalid literal for int with base 10: " ++ String.mk cs))

/-- `tuple(map(int, segments))`: converts each segment left to right,
propagating the first `ValueError`. -/
def mapIntsE : List (List Char) → Except PyError (List Int)
  | [] => Except.ok []
  | s :: rest =>
    match pythonIntE s with
    | Except.error e => Except.error e
    | Except.ok n =>
      match mapIntsE rest with
      | Except.error e => Except.error e
      | Except.ok ns => Except.ok (n :: ns)

/-- Embedding of the inner `versiontuple`:
`tuple(map(int, (v.split("."))))`, with the `ValueError` of a failing
segment surfaced as an error. -/
def versiontuple (v : String) : Except PyError (List Int) :=
  mapIntsE (splitOnDot v.toList)

/-- Python `<` on tuples of integers: lexicographic, a strict prefix is
smaller. -/
def tupleLt : List Int → List Int → Bool
  | [], [] => false
  | [], _ :: _ => true
  | _ :: _, [] => false
  | a :: la, b :: lb =>
    if a < b then true
    else if b < a then false
    else tupleLt la lb

/-- `versiontuple(a) < versiontuple(b)` with Python evaluation order: the
left operand is converted first, so its `ValueError` wins. -/
def versionLt (a b : String) : Except PyError Bool :=
  match versiontuple a with
  | Except.error e => Except.error e
  | Except.ok ta =>
    match versiontuple b with
    | Except.error e => Except.error e
    | Except.ok tb => Except.ok (tupleLt ta tb)

/-- `versiontuple(a) > versiontuple(b)`: Python tuple `>` is the mirrored
strict comparison. -/
def versionGt (a b : String) : Except PyError Bool :=
  match versiontuple a with
  | Except.error e => Except.error e
  | Except.ok ta =>
    match versiontuple b with
    | Except.error e => Except.error e
    | Except.ok tb => Except.ok (tupleLt tb ta)

/-- Observable events of `check_dependencies`: a `print`, the `os.popen`
pip invocation, and the `kernel.do_shutdown(restart)` signal. -/
inductive Event where
  | printed (s : String)
  | installCmd (cmd : String)
  | shutdown (restart : Bool)
  deriving DecidableEq, Repr

/-- `required_version = '2.90.0'`. -/
def required_version : String := "2.90.0"

/-- The diagnostic printed before installing, from
`'This workshop was tested with sagemaker version {} but you are using {}.
Installing required version...'.format(required_version, sagemaker.__version__)`. -/
def testedMsg (installedVersion : String) : String :=
  "This workshop was tested with sagemaker version " ++ required_version ++
    " but you are using " ++ installedVersion ++ ". Installing required version..."

/-- The shell command passed to `os.popen`:
`'{} -m pip install -U sagemaker=={}'.format(sys.executable, required_version)`. -/
def pipCmd (sysExecutable : String) : String :=
  sysExecutable ++ " -m pip install -U sagemaker==" ++ required_version

/-- Printed before the shutdown signal. -/
def kernelRestartMsg : String :=
  "Restarting kernel after installing new dependencies..."

/-- Printed after the shutdown signal. -/
def warningMsg : String :=
  "WARNING: Kernel restarting...please wait 30 seconds before moving to the next cell!"

/-- Embedding of `check_dependencies`.  Inputs: the installed
`sagemaker.__version__`, `sys.executable`, and the behaviour of the pip
subprocess (its combined output stream, read by `stream.read()`, and its
exit status, which the code never asks for).  The result is the ordered
trace of observable events, or the uncaught error. -/
def check_dependencies (sagemakerVersion sysExecutable : String)
    (installerOutput : String) (installerExitStatus : Int) :
    Except PyError (List Event) :=
  match versiontuple sagemakerVersion with
  | Except.error e => Except.error e
  | Except.ok installedTuple =>
    match versiontuple required_version with
    | Except.error e => Except.error e
    | Except.ok requiredTuple =>
      if tupleLt installedTuple requiredTuple then
        Except.ok
          [ Event.printed (testedMsg sagemakerVersion),
            Event.installCmd (pipCmd sysExecutable),
            Event.printed installerOutput,
            Event.printed kernelRestartMsg,
            Event.shutdown true,
            Event.printed warningMsg ]
      else
        Except.ok []

/-- The pip invocations in a trace. -/
def installCmds (evts : List Event) : List String :=
  evts.filterMap (fun e =>
    match e with
    | Event.installCmd c => some c
    | _ => none)

/-- The shutdown signals in a trace. -/
def shutdownSignals (evts : List Event) : List Bool :=
  evts.filterMap (fun e =>
    match e with
    | Event.shutdown r => some r
    | _ => none)

/-! ### Helper lemmas -/

theorem pythonIntE_error_is_valueError (s : List Char) (e : PyError)
    (h : pythonIntE s = Except.error e) : ∃ m, e = PyError.valueError m := by
  unfold pythonIntE at h
  cases hp : pythonInt s with
  | none => rw [hp] at h; exact ⟨_, (Except.error.injEq _ _).mp h.symm⟩
  | some n => rw [hp] at h; cases h

theorem mapIntsE_error_is_valueError (l : List (List Char)) (e : PyError)
    (h : mapIntsE l = Except.error e) : ∃ m, e = PyError.valueError m := by
  induction l with
  | nil => cases h
  | cons s rest ih =>
    unfold mapIntsE at h
    cases hs : pythonIntE s with
    | error e1 =>
      rw [hs] at h
      cases h
      exact pythonIntE_error_is_valueError s _ hs
    | ok n =>
      rw [hs] at h
      cases hr : mapIntsE rest with
      | error e2 => rw [hr] at h; cases h; exact ih hr
      | ok ns => rw [hr] at h; cases h

theorem mapIntsE_error_of_bad_elem (l : List (List Char))
    (h : ∃ s ∈ l, pythonInt s = none) :
    ∃ m, mapIntsE l = Except.error (PyError.valueError m) := by
  induction l with
  | nil => obtain ⟨s, hs, _⟩ := h; cases hs
  | cons s rest ih =>
    obtain ⟨s0, hs0, hbad⟩ := h
    cases hs : pythonIntE s with
    | error e1 =>
      obtain ⟨m, hm⟩ := pythonIntE_error_is_valueError s e1 hs
      exact ⟨m, by unfold mapIntsE; rw [hs, hm]⟩
    | ok n =>
      have hs0r : s0 ∈ rest := by
        rcases List.mem_cons.mp hs0 with h0 | h0
        · exfalso
          unfold pythonIntE at hs
          rw [h0] at hbad
          rw [hbad] at hs
          cases hs
        · exact h0
      obtain ⟨m, hm⟩ := ih ⟨s0, hs0r, hbad⟩
      exact ⟨m, by unfold mapIntsE; rw [hs, hm]⟩

theorem versiontuple_required : versiontuple required_version = Except.ok [2, 90, 0] := rfl

theorem versionLt_required_true_elim (ver : String)
    (h : versionLt ver required_version = Except.ok true) :
    ∃ t, versiontuple ver = Except.ok t ∧ tupleLt t [2, 90, 0] = true := by
  unfold versionLt at h
  cases hv : versiontuple ver with
  | error e => rw [hv] at h; cases h
  | ok t =>
    rw [hv, versiontuple_required] at h
    exact ⟨t, rfl, (Except.ok.injEq _ _).mp h⟩

theorem versionLt_required_false_elim (ver : String)
    (h : versionLt ver required_version = Except.ok false) :
    ∃ t, versiontuple ver = Except.ok t ∧ tupleLt t [2, 90, 0] = false := by
  unfold versionLt at h
  cases hv : versiontuple ver with
  | error e => rw [hv] at h; cases h
  | ok t =>
    rw [hv, versiontuple_required] at h
    exact ⟨t, rfl, (Except.ok.injEq _ _).mp h⟩

theorem check_dependencies_of_lt (ver : String) (t : List Int)
    (hv : versiontuple ver = Except.ok t) (hlt : tupleLt t [2, 90, 0] = true)
    (exe out : String) (st : Int) :
    check_dependencies ver exe out st =
      Except.ok
        [ Event.printed (testedMsg ver),
          Event.installCmd (pipCmd exe),
          Event.printed out,
          Event.printed kernelRestartMsg,
          Event.shutdown true,
          Event.printed warningMsg ] := by
  simp [check_dependencies, hv, versiontuple_required, hlt]

theorem check_dependencies_of_not_lt (ver : String) (t : List Int)
    (hv : versiontuple ver = Except.ok t) (hlt : tupleLt t [2, 90, 0] = false)
    (exe out : String) (st : Int) :
    check_dependencies ver exe out st = Except.ok [] := by
  simp [check_dependencies, hv, versiontuple_required, hlt]

/-! ### Claim theorems -/

/-- C1: for every name prefix for which the listing API reports at least
one completed matching job (a nonempty response, sorted descending by
creation time per the listing contract), `get_latest_training_job_name`
returns the name of a job with the maximum creation timestamp among the
matches — the first element of the descending sequence. -/
theorem get_latest_training_job_name_returns_max
    (listApi : ListTrainingJobsRequest → List TrainingJobSummary)
    (base_job_name : String)
    (hsorted : (listApi (listRequest base_job_name)).Pairwise
      (fun a b => b.creationTime ≤ a.creationTime))
    (hne : listApi (listRequest base_job_name) ≠ []) :
    ∃ j ∈ listApi (listRequest base_job_name),
      (get_latest_training_job_name listApi base_job_name).2 =
        Except.ok j.trainingJobName ∧
      ∀ k ∈ listApi (listRequest base_job_name),
        k.creationTime ≤ j.creationTime := by
  cases h : listApi (listRequest base_job_name) with
  | nil => exact absurd h hne
  | cons j rest =>
    refine ⟨j, ?_, ?_, ?_⟩
    · exact List.mem_cons_self j rest
    · unfold get_latest_training_job_name
      rw [h]
    · intro k hk
      rw [h] at hsorted
      rcases List.mem_cons.mp hk with hkj | hkr
      · rw [hkj]
      · exact (List.pairwise_cons.mp hsorted).1 k hkr

/-- Witness for C1 at the spec example: two completed jobs created Jan 1
and Feb 1; the Feb 1 job is returned. -/
theorem get_latest_training_job_name_returns_max_witness :
    ∃ j ∈ (fun _ : ListTrainingJobsRequest =>
        [ TrainingJobSummary.mk "churn-predict-2024-02-01" 2 "Completed",
          TrainingJobSummary.mk "churn-predict-2024-01-01" 1 "Completed" ])
        (listRequest "churn-predict"),
      (get_latest_training_job_name
        (fun _ =>
          [ TrainingJobSummary.mk "churn-predict-2024-02-01" 2 "Completed",
            TrainingJobSummary.mk "churn-predict-2024-01-01" 1 "Completed" ])
        "churn-predict").2 = Except.ok j.trainingJobName ∧
      ∀ k ∈ (fun _ : ListTrainingJobsRequest =>
        [ TrainingJobSummary.mk "churn-predict-2024-02-01" 2 "Completed",
          TrainingJobSummary.mk "churn-predict-2024-01-01" 1 "Completed" ])
        (listRequest "churn-predict"),
        k.creationTime ≤ j.creationTime :=
  get_latest_training_job_name_returns_max
    (fun _ =>
      [ TrainingJobSummary.mk "churn-predict-2024-02-01" 2 "Completed",
        TrainingJobSummary.mk "churn-predict-2024-01-01" 1 "Completed" ])
    "churn-predict"
    (by simp [List.pairwise_cons])
    (by simp)

/-- C2: for a prefix with zero completed matches the function fails with
the locally raised not-found error after issuing exactly one listing
request (no retry); moreover the not-found error is the only locally
constructed error in the repository — every error of the other two
functions is a passed-through remote error or an interpreter
`ValueError`. -/
theorem get_latest_not_found_when_empty
    (listApi : ListTrainingJobsRequest → List TrainingJobSummary)
    (base_job_name : String)
    (h : listApi (listRequest base_job_name) = []) :
    (get_latest_training_job_name listApi base_job_name).2 =
      Except.error (PyError.notFound "Training job not found.") ∧
    (get_latest_training_job_name listApi base_job_name).1 =
      [listRequest base_job_name] ∧
    (∀ (api2 : ListTrainingJobsRequest → List TrainingJobSummary)
        (b : String) (e : PyError),
      (get_latest_training_job_name api2 b).2 = Except.error e →
        e = PyError.notFound "Training job not found.") ∧
    (∀ (describeApi : String → Except String TrainingJobDescription)
        (job : String) (e : PyError),
      get_training_job_s3_model_artifacts describeApi job = Except.error e →
        ∃ m, e = PyError.remote m) ∧
    (∀ (v exe out : String) (st : Int) (e : PyError),
      check_dependencies v exe out st = Except.error e →
        ∃ m, e = PyError.valueError m) := by
  refine ⟨?_, ?_, ?_, ?_, ?_⟩
  · unfold get_latest_training_job_name
    rw [h]
  · unfold get_latest_training_job_name
    rw [h]
  · intro api2 b e he
    unfold get_latest_training_job_name at he
    cases h2 : api2 (listRequest b) with
    | nil => rw [h2] at he; cases he; rfl
    | cons s rest => rw [h2] at he; cases he
  · intro describeApi job e he
    unfold get_training_job_s3_model_artifacts at he
    cases hd : describeApi job with
    | error m => rw [hd] at he; cases he; exact ⟨m, rfl⟩
    | ok resp => rw [hd] at he; cases he
  · intro v exe out st e he
    unfold check_dependencies at he
    cases hv : versiontuple v with
    | error e1 =>
      rw [hv] at he
      cases he
      exact mapIntsE_error_is_valueError _ _ hv
    | ok t =>
      rw [hv, versiontuple_required] at he
      by_cases hlt : tupleLt t [2, 90, 0] = true
      · simp [hlt] at he
      · simp [hlt] at he

/-- Witness for C2: an API reporting no matching jobs. -/
theorem get_latest_not_found_when_empty_witness :
    (get_latest_training_job_name (fun _ => []) "no-such-job").2 =
      Except.error (PyError.notFound "Training job not found.") ∧
    (get_latest_training_job_name (fun _ => []) "no-such-job").1 =
      [listRequest "no-such-job"] ∧
    (∀ (api2 : ListTrainingJobsRequest → List TrainingJobSummary)
        (b : String) (e : PyError),
      (get_latest_training_job_name api2 b).2 = Except.error e →
        e = PyError.notFound "Training job not found.") ∧
    (∀ (describeApi : String → Except String TrainingJobDescription)
        (job : String) (e : PyError),
      get_training_job_s3_model_artifacts describeApi job = Except.error e →
        ∃ m, e = PyError.remote m) ∧
    (∀ (v exe out : String) (st : Int) (e : PyError),
      check_dependencies v exe out st = Except.error e →
        ∃ m, e = PyError.valueError m) :=
  get_latest_not_found_when_empty (fun _ => []) "no-such-job" rfl

/-- C3: the stated version comparisons hold: 2.90.0 < 2.91.0; 2.90.0 equals
(and is not less than) 2.90.0; 2.90.1 > 2.90.0; and `versiontuple` maps
"2.90.0" to the integer tuple (2, 90, 0) by splitting on the dot. -/
theorem versiontuple_comparison_examples :
    versionLt "2.90.0" "2.91.0" = Except.ok true ∧
    versiontuple "2.90.0" = versiontuple "2.90.0" ∧
    versionLt "2.90.0" "2.90.0" = Except.ok false ∧
    versionGt "2.90.1" "2.90.0" = Except.ok true ∧
    versiontuple "2.90.0" = Except.ok [2, 90, 0] :=
  ⟨rfl, rfl, rfl, rfl, rfl⟩

/-- C4: whenever the installed version is strictly below the required
"2.90.0", `check_dependencies` issues exactly one installer invocation,
with the command `<interpreter> -m pip install -U sagemaker==2.90.0`
pinning the exact required version, and afterwards signals the kernel
restart exactly once, the install strictly preceding the restart signal. -/
theorem check_dependencies_installs_when_outdated
    (ver exe out : String) (st : Int)
    (h : versionLt ver required_version = Except.ok true) :
    ∃ evts, check_dependencies ver exe out st = Except.ok evts ∧
      installCmds evts = [exe ++ " -m pip install -U sagemaker==" ++ required_version] ∧
      shutdownSignals evts = [true] ∧
      ∃ i j : Nat, i < j ∧
        evts[i]? = some (Event.installCmd
          (exe ++ " -m pip install -U sagemaker==" ++ required_version)) ∧
        evts[j]? = some (Event.shutdown true) := by
  obtain ⟨t, hv, hlt⟩ := versionLt_required_true_elim ver h
  refine ⟨_, check_dependencies_of_lt ver t hv hlt exe out st, rfl, rfl,
    1, 4, by decide, rfl, rfl⟩

/-- Witness for C4 at installed version 2.89.0. -/
theorem check_dependencies_installs_when_outdated_witness :
    versionLt "2.89.0" required_version = Except.ok true ∧
    ∃ evts, check_dependencies "2.89.0" "python3" "collected output" 0 =
        Except.ok evts ∧
      installCmds evts =
        ["python3" ++ " -m pip install -U sagemaker==" ++ required_version] ∧
      shutdownSignals evts = [true] ∧
      ∃ i j : Nat, i < j ∧
        evts[i]? = some (Event.installCmd
          ("python3" ++ " -m pip install -U sagemaker==" ++ required_version)) ∧
        evts[j]? = some (Event.shutdown true) :=
  ⟨rfl, check_dependencies_installs_when_outdated "2.89.0" "python3"
    "collected output" 0 rfl⟩

/-- C5: whenever the installed version is greater than or equal to the
required "2.90.0", `check_dependencies` produces no event at all: no
print, no installer invocation, no restart signal. -/
theorem check_dependencies_noop_when_current
    (ver exe out : String) (st : Int)
    (h : versionLt ver required_version = Except.ok false) :
    check_dependencies ver exe out st = Except.ok [] := by
  obtain ⟨t, hv, hlt⟩ := versionLt_required_false_elim ver h
  exact check_dependencies_of_not_lt ver t hv hlt exe out st

/-- Witness for C5 at installed versions 2.90.0 (equal) and 2.91.5
(greater). -/
theorem check_dependencies_noop_when_current_witness :
    versionLt "2.90.0" required_version = Except.ok false ∧
    check_dependencies "2.90.0" "python3" "" 0 = Except.ok [] ∧
    versionLt "2.91.5" required_version = Except.ok false ∧
    check_dependencies "2.91.5" "python3" "" 0 = Except.ok [] :=
  ⟨rfl, check_dependencies_noop_when_current "2.90.0" "python3" "" 0 rfl,
    rfl, check_dependencies_noop_when_current "2.91.5" "python3" "" 0 rfl⟩

/-- C6: for every job identifier for which the describe API returns a
response, `get_training_job_s3_model_artifacts` returns exactly the string
in the nested `ModelArtifacts` / `S3ModelArtifacts` field, untransformed. -/
theorem get_training_job_s3_model_artifacts_exact
    (describeApi : String → Except String TrainingJobDescription)
    (job_name : String) (resp : TrainingJobDescription)
    (h : describeApi job_name = Except.ok resp) :
    get_training_job_s3_model_artifacts describeApi job_name =
      Except.ok resp.modelArtifacts.s3ModelArtifacts := by
  unfold get_training_job_s3_model_artifacts
  rw [h]

/-- Witness for C6 on a concrete describe response. -/
theorem get_training_job_s3_model_artifacts_exact_witness :
    ((fun _ => Except.ok (TrainingJobDescription.mk (ModelArtifacts.mk
        "s3://bucket/output/model.tar.gz"))) :
      String → Except String TrainingJobDescription) "my-job" =
      Except.ok (TrainingJobDescription.mk (ModelArtifacts.mk
        "s3://bucket/output/model.tar.gz")) ∧
    get_training_job_s3_model_artifacts
        (fun _ => Except.ok (TrainingJobDescription.mk (ModelArtifacts.mk
          "s3://bucket/output/model.tar.gz"))) "my-job" =
      Except.ok "s3://bucket/output/model.tar.gz" :=
  ⟨rfl, get_training_job_s3_model_artifacts_exact
    (fun _ => Except.ok (TrainingJobDescription.mk (ModelArtifacts.mk
      "s3://bucket/output/model.tar.gz"))) "my-job"
    (TrainingJobDescription.mk (ModelArtifacts.mk
      "s3://bucket/output/model.tar.gz")) rfl⟩

/-- C7: for every version string with a segment that `int` cannot parse,
`versiontuple` fails with a `ValueError`, and `check_dependencies`
propagates exactly that error uncaught to the caller. -/
theorem versiontuple_fails_on_bad_segment (v : String)
    (h : ∃ s ∈ splitOnDot v.toList, pythonInt s = none) :
    ∃ m, versiontuple v = Except.error (PyError.valueError m) ∧
      ∀ (exe out : String) (st : Int),
        check_dependencies v exe out st =
          Except.error (PyError.valueError m) := by
  obtain ⟨m, hm⟩ := mapIntsE_error_of_bad_elem (splitOnDot v.toList) h
  refine ⟨m, hm, fun exe out st => ?_⟩
  unfold check_dependencies
  rw [show versiontuple v = Except.error (PyError.valueError m) from hm]

/-- Witness for C7 at the pre-release version string "2.90.0rc1". -/
theorem versiontuple_fails_on_bad_segment_witness :
    (∃ s ∈ splitOnDot "2.90.0rc1".toList, pythonInt s = none) ∧
    ∃ m, versiontuple "2.90.0rc1" = Except.error (PyError.valueError m) ∧
      ∀ (exe out : String) (st : Int),
        check_dependencies "2.90.0rc1" exe out st =
          Except.error (PyError.valueError m) :=
  ⟨⟨['0', 'r', 'c', '1'], by decide, rfl⟩,
    versiontuple_fails_on_bad_segment "2.90.0rc1"
      ⟨['0', 'r', 'c', '1'], by decide, rfl⟩⟩

/-- C8: an extra trailing zero component makes the longer tuple strictly
greater under the lexicographic comparison, and in particular
`versiontuple("2.9") < versiontuple("2.9.0")`. -/
theorem tupleLt_extra_trailing_zero :
    (∀ t : List Int, tupleLt t (t ++ [0]) = true) ∧
    versionLt "2.9" "2.9.0" = Except.ok true := by
  refine ⟨fun t => ?_, rfl⟩
  induction t with
  | nil => rfl
  | cons a l ih => simp [tupleLt, ih]

/-- C9: in every execution in which the kernel restart is marked required
(exactly the executions where the installed version compares below the
required one), the restart warning
"Restarting kernel after installing new dependencies..." is printed and
then the shutdown-with-restart signal is issued, in that order; the
remaining trace follows the source line by line, with the
WARNING-labelled message printed after the signal. -/
theorem check_dependencies_warning_precedes_shutdown
    (ver exe out : String) (st : Int)
    (h : versionLt ver required_version = Except.ok true) :
    ∃ evts, check_dependencies ver exe out st = Except.ok evts ∧
      (∃ i j : Nat, i < j ∧
        evts[i]? = some (Event.printed kernelRestartMsg) ∧
        evts[j]? = some (Event.shutdown true)) ∧
      evts = [ Event.printed (testedMsg ver),
               Event.installCmd (pipCmd exe),
               Event.printed out,
               Event.printed kernelRestartMsg,
               Event.shutdown true,
               Event.printed warningMsg ] := by
  obtain ⟨t, hv, hlt⟩ := versionLt_required_true_elim ver h
  exact ⟨_, check_dependencies_of_lt ver t hv hlt exe out st,
    ⟨3, 4, by decide, rfl, rfl⟩, rfl⟩

/-- Witness for C9 at installed version 2.0.0. -/
theorem check_dependencies_warning_precedes_shutdown_witness :
    versionLt "2.0.0" required_version = Except.ok true ∧
    ∃ evts, check_dependencies "2.0.0" "python3" "pip output" 0 =
        Except.ok evts ∧
      (∃ i j : Nat, i < j ∧
        evts[i]? = some (Event.printed kernelRestartMsg) ∧
        evts[j]? = some (Event.shutdown true)) ∧
      evts = [ Event.printed (testedMsg "2.0.0"),
               Event.installCmd (pipCmd "python3"),
               Event.printed "pip output",
               Event.printed kernelRestartMsg,
               Event.shutdown true,
               Event.printed warningMsg ] :=
  ⟨rfl, check_dependencies_warning_precedes_shutdown "2.0.0" "python3"
    "pip output" 0 rfl⟩

/-- C10: the installer subprocess's exit status is never inspected — the
trace of `check_dependencies` is identical for any two exit statuses —
and when the installed version is below the required one the restart is
signalled whatever the subprocess's output and status were; only the
output stream is read, and it is merely printed. -/
theorem check_dependencies_ignores_exit_status
    (ver exe : String)
    (h : versionLt ver required_version = Except.ok true) :
    (∀ (v e o : String) (s1 s2 : Int),
      check_dependencies v e o s1 = check_dependencies v e o s2) ∧
    (∀ (out : String) (st : Int), ∃ evts,
      check_dependencies ver exe out st = Except.ok evts ∧
      shutdownSignals evts = [true] ∧
      Event.printed out ∈ evts) := by
  obtain ⟨t, hv, hlt⟩ := versionLt_required_true_elim ver h
  refine ⟨fun v e o s1 s2 => rfl, fun out st => ?_⟩
  refine ⟨_, check_dependencies_of_lt ver t hv hlt exe out st, rfl, ?_⟩
  simp

/-- Witness for C10: an installed version below the requirement, a failure
message on the output stream and a nonzero exit status still lead to the
restart signal. -/
theorem check_dependencies_ignores_exit_status_witness :
    versionLt "2.89.0" required_version = Except.ok true ∧
    ((∀ (v e o : String) (s1 s2 : Int),
      check_dependencies v e o s1 = check_dependencies v e o s2) ∧
    (∀ (out : String) (st : Int), ∃ evts,
      check_dependencies "2.89.0" "python3" out st = Except.ok evts ∧
      shutdownSignals evts = [true] ∧
      Event.printed out ∈ evts)) :=
  ⟨rfl, check_dependencies_ignores_exit_status "2.89.0" "python3" rfl⟩
